import Mathlib

/-!
Verification of the fake-news detection bot (src/bot.py).

The Python module is embedded shallowly:

* Python strings are `List Char` (operations work on code points, as
  Python string operations do); `str.lower()` is `pyLower` (the inputs of
  interest are ASCII, where Python and `Char.toLower` agree);
* `sub in s` is `hasSub` / `strIn`; `s.count(sub)` is `pyCount`
  (non-overlapping left-to-right count, as in CPython);
* the regex search in `parse_response` is `reSearchConf`, a direct
  implementation of `re.search` for the fixed pattern
  `(\d{1,3})%?\s*(confident|confidence|certain)`;
* Python floats are modelled as exact rationals `ℚ`;
* the HTTP call in `call_ollama` is modelled by an explicit outcome value
  (`HttpOutcome`): the raised-exception, status-code and body cases; the
  `analyze` orchestrator takes the completion client as a function
  parameter `client : String → String`.
-/

namespace Bot

/-- Python `str.lower()` restricted to ASCII case mapping. -/
def pyLower (s : List Char) : List Char := s.map Char.toLower

/-- Python `sub in s` (contiguous substring test). -/
def hasSub (sub : List Char) : List Char → Bool
  | [] => sub.isEmpty
  | c :: rest => List.isPrefixOf sub (c :: rest) || hasSub sub rest

/-- Convenience wrapper: `strIn sub s` is Python `sub in s`. -/
def strIn (sub : String) (s : List Char) : Bool := hasSub sub.toList s

/-- Scanning loop of Python `s.count(sub)` for non-empty `sub`: at each
position, a match of `sub` contributes one occurrence and the scan resumes
after it (non-overlapping), otherwise the scan advances one character.
Every step consumes at least one character of `s`, so `fuel = s.length`
suffices; recursion on the fuel keeps the definition kernel-reducible. -/
def pyCountAux : Nat → List Char → List Char → Nat
  | 0, _, _ => 0
  | fuel + 1, s, sub =>
    match s with
    | [] => 0
    | c :: rest =>
      if List.isPrefixOf sub (c :: rest) then
        1 + pyCountAux fuel (rest.drop (sub.length - 1)) sub
      else
        pyCountAux fuel rest sub

/-- Python `s.count(sub)`: the number of non-overlapping occurrences,
scanning left to right (CPython semantics). For empty `sub`, CPython
returns `len(s) + 1`. -/
def pyCount (s sub : List Char) : Nat :=
  match sub with
  | [] => s.length + 1
  | d :: ds => pyCountAux s.length s (d :: ds)

/-- The verdict record returned by the bot: `{"is_fake": ..., "confidence": ...}`. -/
structure Verdict where
  is_fake : Bool
  confidence : ℚ
deriving DecidableEq, Repr

/-! ### parse_response (src/bot.py lines 37-73) -/

/-- `"verdict: fake" in response_lower or "classification: fake" in response_lower` -/
def fakeMarker (rl : List Char) : Bool :=
  strIn "verdict: fake" rl || strIn "classification: fake" rl

/-- `"verdict: real" in response_lower or "classification: real" in response_lower` -/
def realMarker (rl : List Char) : Bool :=
  strIn "verdict: real" rl || strIn "classification: real" rl

/-- `"this is fake" in response_lower or "appears to be fake" in response_lower` -/
def fakePhrase (rl : List Char) : Bool :=
  strIn "this is fake" rl || strIn "appears to be fake" rl

/-- `"this is real" in ... or "appears to be real" in ... or "legitimate" in ...` -/
def realPhrase (rl : List Char) : Bool :=
  strIn "this is real" rl || strIn "appears to be real" rl || strIn "legitimate" rl

/-- `fake_count = count("fake") + count("misinformation") + count("false")` -/
def fake_count (rl : List Char) : Nat :=
  pyCount rl "fake".toList + pyCount rl "misinformation".toList + pyCount rl "false".toList

/-- `real_count = count("real") + count("legitimate") + count("credible")` -/
def real_count (rl : List Char) : Nat :=
  pyCount rl "real".toList + pyCount rl "legitimate".toList + pyCount rl "credible".toList

/-- The `is_fake` decision cascade of `parse_response`. -/
def parseIsFake (rl : List Char) : Bool :=
  if fakeMarker rl then true
  else if realMarker rl then false
  else if fakePhrase rl then true
  else if realPhrase rl then false
  else decide (fake_count rl > real_count rl)

/-- Python `\s` on the ASCII range: the whitespace class of `re`. -/
def isPySpace (c : Char) : Bool :=
  c = ' ' || c = '\t' || c = '\n' || c = '\x0d' || c = '\x0b' || c = '\x0c'

/-- Whether one of the alternatives `confident|confidence|certain` matches
at the start of `s`. -/
def confWordAt (s : List Char) : Bool :=
  List.isPrefixOf "confident".toList s || List.isPrefixOf "confidence".toList s ||
    List.isPrefixOf "certain".toList s

/-- Numeric value of a digit string (the regex group `(\d{1,3})`). -/
def digitsVal (ds : List Char) : Nat :=
  ds.foldl (fun n c => 10 * n + (c.toNat - 48)) 0

/-- Anchored match of `(\d{1,3})%?\s*(confident|confidence|certain)` at the
start of `s`, returning the numeric value of group 1.

The greedy quantifiers collapse to this deterministic form: a shorter
digit take leaves a digit as the next character, on which `%?`, `\s*` and
the keyword all fail, so only the full leading digit run (of length at
most 3) can match; similarly `%?` and `\s*` admit exactly one viable
consumption since the keyword starts with a letter. -/
def matchConfAt (s : List Char) : Option Nat :=
  let ds := s.takeWhile Char.isDigit
  if ds.length = 0 || 3 < ds.length then none
  else
    let r1 := s.drop ds.length
    let r2 := match r1 with
      | '%' :: r => r
      | _ => r1
    let r3 := r2.dropWhile isPySpace
    if confWordAt r3 then some (digitsVal ds) else none

/-- `re.search(r'(\d{1,3})%?\s*(confident|confidence|certain)', rl)`:
leftmost match wins. -/
def reSearchConf : List Char → Option Nat
  | [] => none
  | c :: rest =>
    match matchConfAt (c :: rest) with
    | some n => some n
    | none => reSearchConf rest

/-- The confidence-extraction cascade of `parse_response` (lines 57-71).
The default 0.75 is overridden by the first matching rule. -/
def extractConfidence (rl : List Char) : ℚ :=
  match reSearchConf rl with
  | some n => min ((n : ℚ) / 100) 1
  | none =>
    if strIn "highly likely" rl || strIn "very confident" rl then 0.9
    else if strIn "likely" rl || strIn "probably" rl then 0.75
    else if strIn "possibly" rl || strIn "might be" rl then 0.6
    else if strIn "uncertain" rl then 0.5
    else 0.75

/-- `parse_response` (lines 37-73): lower-cases the response, decides
`is_fake` by the marker/phrase/count cascade and extracts confidence. -/
def parse_response (response : String) : Verdict :=
  { is_fake := parseIsFake (pyLower response.toList)
    confidence := extractConfidence (pyLower response.toList) }

/-! ### call_ollama (src/bot.py lines 14-34) -/

/-- The outcome of the single `requests.post` call: either the library
raised (connection error, timeout, ...), or an HTTP response arrived with
a status code and a body — `none` standing for a body that is not a JSON
object (so that `response.json()` or `.get` raises). -/
inductive HttpOutcome where
  | raised (msg : String)
  | reply (status : Nat) (body : Option (List (String × String)))
deriving DecidableEq

/-- `dict.get(key, default)` on the decoded JSON object. -/
def dictGet (kvs : List (String × String)) (key dflt : String) : String :=
  match kvs.find? (fun kv => kv.1 = key) with
  | some kv => kv.2
  | none => dflt

/-- The body of the `try:` block in `call_ollama`: `requests.post` (which
may raise), `response.raise_for_status()` (which raises on a 4xx/5xx
status), `response.json()` (which raises on a malformed body) and
`.get("response", "")`. Raising is modelled by `Except.error`. -/
def callOllamaTry (o : HttpOutcome) : Except String String :=
  match o with
  | .raised msg => .error msg
  | .reply status body =>
    if 400 ≤ status ∧ status < 600 then .error "HTTPError"
    else
      match body with
      | none => .error "JSONDecodeError"
      | some kvs => .ok (dictGet kvs "response" "")

/-- `call_ollama` (lines 14-34): the `try/except Exception` wrapper turns
every error into the empty string. The second component counts the
outbound requests issued: the function consumes exactly one `HttpOutcome`
and the count is always 1 (no retries). -/
def call_ollama (o : HttpOutcome) : String × Nat :=
  match callOllamaTry o with
  | .error _ => ("", 1)
  | .ok s => (s, 1)

/-! ### analyze (src/bot.py lines 76-118) -/

/-- Text of the prompt f-string before `{article_title}`. -/
def promptPart1 : List Char :=
  "You are a fake news detection expert. Analyze this news article and determine if it's FAKE or REAL.\n\nTITLE: ".toList

/-- Text of the prompt f-string between `{article_title}` and
`{article_content[:1500]}`. -/
def promptPart2 : List Char := "\n\nCONTENT: ".toList

/-- Text of the prompt f-string after `{article_content[:1500]}`. -/
def promptPart3 : List Char :=
  "\n\nAnalyze for:\n1. Sensationalist language (shocking, unbelievable, miracle)\n2. Lack of credible sources\n3. Emotional manipulation\n4. Logical inconsistencies\n5. Implausible claims\n\nRespond with:\n- VERDICT: FAKE or REAL\n- CONFIDENCE: percentage (e.g., 85%)\n- REASON: one sentence explanation\n\nKeep your response brief and focused.".toList

/-- The prompt built by `analyze` (lines 89-107): the title verbatim and
the content truncated by the slice `article_content[:1500]`. -/
def buildPrompt (article_title article_content : String) : List Char :=
  promptPart1 ++ article_title.toList ++ promptPart2 ++
    article_content.toList.take 1500 ++ promptPart3

/-- The keyword list of `fallback_analyze` (line 123). -/
def fake_keywords : List String :=
  ["shocking", "unbelievable", "miracle", "secret", "conspiracy"]

/-- `score = sum(1 for k in fake_keywords if k in text)` over
`text = (article_title + ' ' + article_content).lower()` (lines 124-126). -/
def fallbackScore (article_title article_content : String) : Nat :=
  fake_keywords.countP
    (fun k => strIn k (pyLower (article_title.toList ++ ' ' :: article_content.toList)))

/-- `fallback_analyze` (lines 121-129). -/
def fallback_analyze (article_title article_content : String) : Verdict :=
  { is_fake := decide (fallbackScore article_title article_content ≥ 2)
    confidence := min (0.5 + (fallbackScore article_title article_content : ℚ) * 0.1) 0.9 }

/-- `analyze` (lines 76-118), with the completion client passed in as a
function from the prompt to the response text (`call_ollama` at the
call site; `""` is its unavailable signal). `if not response:` is the
emptiness test on the returned string. -/
def analyze (client : String → String) (article_title article_content : String) :
    Verdict :=
  let response := client (String.mk (buildPrompt article_title article_content))
  if response = "" then fallback_analyze article_title article_content
  else parse_response response

/-! ### Helper lemmas -/

/-- The confidence cascade only produces values in `[0, 1]`. -/
lemma extractConfidence_mem (rl : List Char) :
    0 ≤ extractConfidence rl ∧ extractConfidence rl ≤ 1 := by
  unfold extractConfidence
  cases h : reSearchConf rl with
  | some n =>
    refine ⟨le_min (by positivity) (by norm_num), min_le_right _ _⟩
  | none =>
    split_ifs <;> norm_num

/-- The fallback confidence `min (0.5 + score * 0.1) 0.9` lies in `[0, 1]`. -/
lemma fallback_confidence_mem (t c : String) :
    0 ≤ (fallback_analyze t c).confidence ∧ (fallback_analyze t c).confidence ≤ 1 := by
  unfold fallback_analyze
  constructor
  · apply le_min
    · have h : (0 : ℚ) ≤ (fallbackScore t c : ℚ) := Nat.cast_nonneg _
      nlinarith
    · norm_num
  · exact le_trans (min_le_right _ _) (by norm_num)

/-! ### Claims -/

/-- C1: for every completion client and every title and content,
`analyze` returns a well-formed verdict: `is_fake` is a `Bool` (by the
type of `Verdict`) and `confidence` lies in `[0, 1]`. Totality of the
Lean function `analyze` — covering both the parser path and the fallback
path — embeds the no-exception/no-partial-result part of the claim. -/
theorem analyze_wellformed_C1 (client : String → String) (t c : String) :
    0 ≤ (analyze client t c).confidence ∧ (analyze client t c).confidence ≤ 1 := by
  unfold analyze
  dsimp only
  split
  · exact fallback_confidence_mem t c
  · exact extractConfidence_mem _

/-- C2: if the completion client returns the empty-string unavailable
signal for the built prompt, `analyze` equals `fallback_analyze` on the
same title and content, bit for bit; otherwise it equals `parse_response`
applied to the completion text. -/
theorem analyze_dispatch_C2 (client : String → String) (t c : String) :
    (client (String.mk (buildPrompt t c)) = "" →
      analyze client t c = fallback_analyze t c) ∧
    (client (String.mk (buildPrompt t c)) ≠ "" →
      analyze client t c = parse_response (client (String.mk (buildPrompt t c)))) := by
  unfold analyze
  constructor
  · intro h
    simp [h]
  · intro h
    simp [h]

/-- C2 witness: a client answering `""` everywhere sends `analyze` to the
fallback classifier. -/
theorem analyze_dispatch_C2_witness :
    analyze (fun _ => "") "Headline" "Body text" = fallback_analyze "Headline" "Body text" :=
  (analyze_dispatch_C2 (fun _ => "") "Headline" "Body text").1 rfl

/-- C3: an explicit fake marker (`"verdict: fake"` or
`"classification: fake"`, case-insensitively) with no real marker forces
`is_fake = true` regardless of the rest of the text; symmetrically an
explicit real marker with no fake marker forces `is_fake = false`. -/
theorem parse_response_markers_C3 (s : String) :
    (fakeMarker (pyLower s.toList) = true → realMarker (pyLower s.toList) = false →
      (parse_response s).is_fake = true) ∧
    (realMarker (pyLower s.toList) = true → fakeMarker (pyLower s.toList) = false →
      (parse_response s).is_fake = false) := by
  constructor
  · intro hf _
    show parseIsFake (pyLower s.toList) = true
    unfold parseIsFake
    rw [hf]
    simp
  · intro hr hf
    show parseIsFake (pyLower s.toList) = false
    unfold parseIsFake
    rw [hf, hr]
    simp

/-- C3 witness: `"Verdict: FAKE..."` amid real-leaning keywords parses as
fake, and `"CLASSIFICATION: real..."` amid fake-leaning keywords parses
as real. -/
theorem parse_response_markers_C3_witness :
    (parse_response "Verdict: FAKE. credible real real real").is_fake = true ∧
    (parse_response "CLASSIFICATION: real. fake fake misinformation").is_fake = false :=
  ⟨(parse_response_markers_C3 "Verdict: FAKE. credible real real real").1
      (by decide) (by decide),
   (parse_response_markers_C3 "CLASSIFICATION: real. fake fake misinformation").2
      (by decide) (by decide)⟩

/-- C4: with no explicit marker and no phrase cue, `is_fake` is decided
by the frequency heuristic: true exactly when the fake-keyword count
strictly exceeds the real-keyword count (so ties give false). -/
theorem parse_response_counts_C4 (s : String)
    (h1 : fakeMarker (pyLower s.toList) = false)
    (h2 : realMarker (pyLower s.toList) = false)
    (h3 : fakePhrase (pyLower s.toList) = false)
    (h4 : realPhrase (pyLower s.toList) = false) :
    (parse_response s).is_fake =
      decide (real_count (pyLower s.toList) < fake_count (pyLower s.toList)) := by
  show parseIsFake (pyLower s.toList) = _
  unfold parseIsFake
  rw [h1, h2, h3, h4]
  simp

/-- C4 witness: a tie (count 1 vs 1) yields `is_fake = false`, and counts
3 vs 1 yield `is_fake = true`. -/
theorem parse_response_counts_C4_witness :
    (parse_response "fake real").is_fake = false ∧
    (parse_response "fake misinformation false real").is_fake = true := by
  constructor
  · rw [parse_response_counts_C4 "fake real" (by decide) (by decide) (by decide) (by decide)]
    decide
  · rw [parse_response_counts_C4 "fake misinformation false real"
      (by decide) (by decide) (by decide) (by decide)]
    decide

/-- C10: when a completion text carries both a fake explicit marker and a
real explicit marker, the fake branch is tested first and wins:
`is_fake = true`. -/
theorem parse_response_precedence_C10 (s : String)
    (hf : fakeMarker (pyLower s.toList) = true)
    (_hr : realMarker (pyLower s.toList) = true) :
    (parse_response s).is_fake = true := by
  show parseIsFake (pyLower s.toList) = true
  unfold parseIsFake
  rw [hf]
  simp

/-- C10 witness: a text with both markers parses as fake. -/
theorem parse_response_precedence_C10_witness :
    (parse_response "verdict: fake but also Verdict: REAL").is_fake = true :=
  parse_response_precedence_C10 "verdict: fake but also Verdict: REAL"
    (by decide) (by decide)

/-- C5: the confidence cascade, independent of the `is_fake` decision:
a regex match `(\d{1,3})%?\s*(confident|confidence|certain)` yields the
matched number over 100 capped at 1; otherwise the phrase ladder
0.9 / 0.75 / 0.6 / 0.5 applies, with default 0.75. -/
theorem parse_response_confidence_C5 (s : String) :
    (∀ n, reSearchConf (pyLower s.toList) = some n →
      (parse_response s).confidence = min ((n : ℚ) / 100) 1) ∧
    (reSearchConf (pyLower s.toList) = none →
      ((strIn "highly likely" (pyLower s.toList) ||
          strIn "very confident" (pyLower s.toList)) = true →
        (parse_response s).confidence = 0.9) ∧
      ((strIn "highly likely" (pyLower s.toList) ||
          strIn "very confident" (pyLower s.toList)) = false →
        ((strIn "likely" (pyLower s.toList) || strIn "probably" (pyLower s.toList)) = true →
          (parse_response s).confidence = 0.75) ∧
        ((strIn "likely" (pyLower s.toList) || strIn "probably" (pyLower s.toList)) = false →
          ((strIn "possibly" (pyLower s.toList) ||
              strIn "might be" (pyLower s.toList)) = true →
            (parse_response s).confidence = 0.6) ∧
          ((strIn "possibly" (pyLower s.toList) ||
              strIn "might be" (pyLower s.toList)) = false →
            (strIn "uncertain" (pyLower s.toList) = true →
              (parse_response s).confidence = 0.5) ∧
            (strIn "uncertain" (pyLower s.toList) = false →
              (parse_response s).confidence = 0.75))))) := by
  constructor
  · intro n hn
    show extractConfidence (pyLower s.toList) = _
    unfold extractConfidence
    rw [hn]
  · intro hnone
    refine ⟨fun h1 => ?_, fun h1 => ⟨fun h2 => ?_, fun h2 => ⟨fun h3 => ?_,
      fun h3 => ⟨fun h4 => ?_, fun h4 => ?_⟩⟩⟩⟩
    · show extractConfidence (pyLower s.toList) = _
      unfold extractConfidence
      rw [hnone, h1]
      simp
    · show extractConfidence (pyLower s.toList) = _
      unfold extractConfidence
      rw [hnone, h1, h2]
      simp
    · show extractConfidence (pyLower s.toList) = _
      unfold extractConfidence
      rw [hnone, h1, h2, h3]
      simp
    · show extractConfidence (pyLower s.toList) = _
      unfold extractConfidence
      rw [hnone, h1, h2, h3, h4]
      simp
    · show extractConfidence (pyLower s.toList) = _
      unfold extractConfidence
      rw [hnone, h1, h2, h3, h4]
      simp

/-- C5 witness: `"87% confident"` gives confidence 0.87 and
`"150% confident"` is capped at 1. -/
theorem parse_response_confidence_C5_witness :
    (parse_response "I am 87% confident here").confidence = 87 / 100 ∧
    (parse_response "I am 150% confident here").confidence = 1 := by
  constructor
  · rw [(parse_response_confidence_C5 "I am 87% confident here").1 87 (by decide)]
    norm_num [min_def]
  · rw [(parse_response_confidence_C5 "I am 150% confident here").1 150 (by decide)]
    norm_num [min_def]

/-- C6: `fallback_analyze` counts how many of the five sensational
keywords occur in the lower-cased concatenation of title and content
(each at most once, so the score is at most 5), flags fake at score ≥ 2
and maps the score to `min (0.5 + 0.1 * score) 0.9`; in particular two
keywords give `(true, 0.7)` and none give `(false, 0.5)`. -/
theorem fallback_analyze_C6 :
    (∀ t c, fallbackScore t c ≤ 5 ∧
      (fallback_analyze t c).is_fake = decide (2 ≤ fallbackScore t c) ∧
      (fallback_analyze t c).confidence =
        min (0.5 + (fallbackScore t c : ℚ) * 0.1) 0.9) ∧
    fallback_analyze "Shocking discovery" "a secret study" =
      { is_fake := true, confidence := 0.7 } ∧
    fallback_analyze "Quiet afternoon" "markets were stable" =
      { is_fake := false, confidence := 0.5 } := by
  refine ⟨fun t c => ⟨?_, rfl, rfl⟩, ?_, ?_⟩
  · exact le_trans (List.countP_le_length _) (by rfl)
  · have h2 : fallbackScore "Shocking discovery" "a secret study" = 2 := by decide
    unfold fallback_analyze
    rw [h2]
    norm_num [min_def]
  · have h0 : fallbackScore "Quiet afternoon" "markets were stable" = 0 := by decide
    unfold fallback_analyze
    rw [h0]
    norm_num [min_def]

/-- C7: the prompt embeds the title verbatim (as a contiguous segment)
and depends on the content only through its first 1500 characters: the
prompt for `c` equals the prompt for the truncation of `c`, so no
character of `c` beyond the 1500th reaches the outbound prompt. -/
theorem buildPrompt_truncation_C7 (t c : String) :
    (∃ a b, buildPrompt t c = a ++ t.toList ++ b) ∧
    buildPrompt t c = buildPrompt t (String.mk (c.toList.take 1500)) := by
  constructor
  · exact ⟨promptPart1,
      promptPart2 ++ c.toList.take 1500 ++ promptPart3, by
        unfold buildPrompt
        simp [List.append_assoc]⟩
  · unfold buildPrompt
    simp [String.toList, List.take_take]

/-- C8 counterexample: `raise_for_status` raises only on 4xx/5xx, so a
non-2xx status outside that range — here 304 with a well-formed body —
is NOT converted to the empty-string unavailable signal: `call_ollama`
returns the body's `response` text. -/
theorem call_ollama_non2xx_C8_counterexample :
    call_ollama (.reply 304 (some [("response", "hello")])) = ("hello", 1) ∧
    ("hello" : String) ≠ "" := by
  constructor
  · rfl
  · decide

/-- C8 (amended: 4xx/5xx in place of non-2xx): the `try/except` boundary
of `call_ollama`: exactly one request is issued for any outcome
(`(call_ollama o).2 = 1`, no retries); a raised transport error or
timeout, a 4xx/5xx status, and a malformed response body are each
converted to the empty-string signal; any other outcome yields the
body's `response` field (default `""`). The total Lean type
`HttpOutcome → String × Nat` embeds the absence of propagated
exceptions. -/
theorem call_ollama_catches_C8_amended (o : HttpOutcome) :
    (call_ollama o).2 = 1 ∧
    (∀ msg, o = .raised msg → (call_ollama o).1 = "") ∧
    (∀ status body, o = .reply status body → 400 ≤ status → status < 600 →
      (call_ollama o).1 = "") ∧
    (∀ status, o = .reply status none → (call_ollama o).1 = "") ∧
    (∀ status kvs, o = .reply status (some kvs) → ¬(400 ≤ status ∧ status < 600) →
      (call_ollama o).1 = dictGet kvs "response" "") := by
  refine ⟨?_, ?_, ?_, ?_, ?_⟩
  · unfold call_ollama
    cases h : callOllamaTry o <;> rfl
  · intro msg h
    subst h
    rfl
  · intro status body h h4 h6
    subst h
    unfold call_ollama
    simp only [callOllamaTry]
    rw [if_pos ⟨h4, h6⟩]
  · intro status h
    subst h
    unfold call_ollama
    simp only [callOllamaTry]
    split_ifs <;> rfl
  · intro status kvs h hn
    subst h
    unfold call_ollama
    simp only [callOllamaTry]
    rw [if_neg hn]

/-- C8 witness: the amended theorem applied at concrete outcomes — a
raised connection error, a 500 status with a well-formed body, a
malformed 200 body, and a successful 200 body. -/
theorem call_ollama_catches_C8_amended_witness :
    (call_ollama (.raised "ConnectionError")).1 = "" ∧
    (call_ollama (.reply 500 (some [("response", "ignored")]))).1 = "" ∧
    (call_ollama (.reply 200 none)).1 = "" ∧
    (call_ollama (.reply 200 (some [("response", "ok")]))).1 = "ok" :=
  ⟨(call_ollama_catches_C8_amended (.raised "ConnectionError")).2.1
      "ConnectionError" rfl,
   (call_ollama_catches_C8_amended (.reply 500 (some [("response", "ignored")]))).2.2.1
      500 (some [("response", "ignored")]) rfl (by decide) (by decide),
   (call_ollama_catches_C8_amended (.reply 200 none)).2.2.2.1 200 rfl,
   (call_ollama_catches_C8_amended (.reply 200 (some [("response", "ok")]))).2.2.2.2
      200 [("response", "ok")] rfl (by decide)⟩

/-- C9: noninterference of the article with the parsed verdict: whenever
the completion client answers a fixed non-empty text, the verdict is
`parse_response` of that text alone, so any two title/content pairs give
the same verdict. -/
theorem analyze_noninterference_C9 (client : String → String)
    (t₁ c₁ t₂ c₂ resp : String) (hne : resp ≠ "")
    (h₁ : client (String.mk (buildPrompt t₁ c₁)) = resp)
    (h₂ : client (String.mk (buildPrompt t₂ c₂)) = resp) :
    analyze client t₁ c₁ = parse_response resp ∧
    analyze client t₁ c₁ = analyze client t₂ c₂ := by
  unfold analyze
  rw [h₁, h₂]
  simp [hne]

/-- C9 witness: a client that always answers `"VERDICT: REAL"` yields the
same verdict for two different articles. -/
theorem analyze_noninterference_C9_witness :
    analyze (fun _ => "VERDICT: REAL") "A title" "some content" =
      analyze (fun _ => "VERDICT: REAL") "Other title" "other content" :=
  (analyze_noninterference_C9 (fun _ => "VERDICT: REAL")
    "A title" "some content" "Other title" "other content" "VERDICT: REAL"
    (by decide) rfl rfl).2

end Bot
